import Mathlib

/-!
Verification of the measurement-file parsers of `VNA_scripts.py`
(Rohde & Schwarz ZVL / ZNL spectrum-analyzer ASCII exports).

The Python code is shallowly embedded:

* a file is a `List String` of its lines (file I/O is abstracted away:
  `open(...)`/iteration simply yields the lines in order);
* Python `float(...)` is modelled as an exact decimal-to-rational parser
  `pyFloat : String → Option ℚ`; the claims under scrutiny only compare
  parsed values for equality against decimal literals, so the exact-rational
  abstraction of IEEE rounding is faithful (both sides of every comparison
  round identically).  Python's acceptance of `inf`/`nan` and of `_` digit
  separators is not modelled — no input in question contains them;
* fallible code returns `Except PyError`; `PyError.indexError` models a
  Python `IndexError` from list indexing, `PyError.valueError tok` models a
  Python `ValueError` raised by `float(tok)`/`int(tok)` (the raw offending
  token is what the real message carries).  The remaining constructors
  (`schemaMismatch`, `malformedDataRow`, `fieldTypeError`) are the error
  taxonomy named by the specification; the embedded code never produces
  them — they exist so that claims speaking about them can be stated.
-/

/-- Errors.  `indexError` and `valueError` are the Python exceptions the
embedded code can actually raise.  `schemaMismatch`, `malformedDataRow` and
`fieldTypeError` are the specification's error taxonomy, modelled from the
spec's words; the code of `VNA_scripts.py` never raises them. -/
inductive PyError where
  | indexError : PyError
  | valueError : String → PyError
  | schemaMismatch : PyError
  | malformedDataRow : Nat → String → PyError
  | fieldTypeError : String → PyError
deriving DecidableEq

namespace PyError

def isSchemaMismatch : PyError → Bool
  | schemaMismatch => true
  | _ => false

def isMalformedDataRow : PyError → Bool
  | malformedDataRow _ _ => true
  | _ => false

end PyError

deriving instance DecidableEq for Except

/-! ### String primitives (Python `str.strip`, `str.split(';')`) -/

/-- Whitespace for Python `str.strip()` (ASCII whitespace). -/
def isPySpace (c : Char) : Bool :=
  c == ' ' || c == '\t' || c == '\n' || c == '\r' || c == '\x0b' || c == '\x0c'

/-- Strip leading and trailing whitespace from a character list. -/
def stripChars (cs : List Char) : List Char :=
  ((cs.dropWhile isPySpace).reverse.dropWhile isPySpace).reverse

/-- Python `s.strip()`. -/
def pyStrip (s : String) : String := String.mk (stripChars s.toList)

/-- Split a character list on `';'`, keeping empty pieces
(Python `s.split(';')`; in particular `""` yields `[""]`). -/
def splitSemi : List Char → List (List Char)
  | [] => [[]]
  | c :: rest =>
    let r := splitSemi rest
    if c == ';' then [] :: r
    else
      match r with
      | [] => [[c]]
      | t :: ts => (c :: t) :: ts

/-- Python `s.split(';')`. -/
def splitTokens (s : String) : List String := (splitSemi s.toList).map String.mk

/-! ### Python numeric conversions -/

def digitVal (c : Char) : Nat := c.toNat - '0'.toNat

def digitsToNat (cs : List Char) : Nat :=
  cs.foldl (fun a c => 10 * a + digitVal c) 0

def allDigits (cs : List Char) : Bool := cs.all Char.isDigit

/-- The exact rational `sign * m * 10 ^ e`, built with integer arithmetic
only (keeps every evaluation kernel-reducible). -/
def decToRat (sign : Int) (m : Nat) (e : Int) : ℚ :=
  if 0 ≤ e then mkRat (sign * m * 10 ^ e.toNat) 1
  else mkRat (sign * m) (10 ^ (-e).toNat)

/-- Mantissa of a float literal: digits with an optional single point, at
least one digit in total.  Returns the digit value and the number of
fractional digits. -/
def parseMantissa (cs : List Char) : Option (Nat × Nat) :=
  let ip := cs.takeWhile Char.isDigit
  let rest := cs.dropWhile Char.isDigit
  match rest with
  | [] => if ip.isEmpty then none else some (digitsToNat ip, 0)
  | '.' :: fp =>
    if allDigits fp && (!ip.isEmpty || !fp.isEmpty) then
      some (digitsToNat (ip ++ fp), fp.length)
    else none
  | _ => none

/-- Exponent part after `e`/`E`: optional sign then digits. -/
def parseExpPart (cs : List Char) : Option Int :=
  match cs with
  | '+' :: ds => if !ds.isEmpty && allDigits ds then some ((digitsToNat ds : Int)) else none
  | '-' :: ds => if !ds.isEmpty && allDigits ds then some (-(digitsToNat ds : Int)) else none
  | ds => if !ds.isEmpty && allDigits ds then some ((digitsToNat ds : Int)) else none

/-- Split at the first `e`/`E`, if any. -/
def splitExpMark : List Char → List Char × Option (List Char)
  | [] => ([], none)
  | c :: rest =>
    if c == 'e' || c == 'E' then ([], some rest)
    else
      let p := splitExpMark rest
      (c :: p.1, p.2)

/-- Python `float(s)` on the strings arising in these files, as an exact
rational: surrounding whitespace is ignored, then an optional sign, a
decimal mantissa and an optional exponent. -/
def pyFloatChars (cs0 : List Char) : Option ℚ :=
  let cs1 := stripChars cs0
  let sc : Int × List Char :=
    match cs1 with
    | '+' :: r => (1, r)
    | '-' :: r => (-1, r)
    | r => (1, r)
  let p := splitExpMark sc.2
  match parseMantissa p.1 with
  | none => none
  | some mf =>
    match p.2 with
    | none => some (decToRat sc.1 mf.1 (-(mf.2 : Int)))
    | some ecs =>
      match parseExpPart ecs with
      | none => none
      | some ex => some (decToRat sc.1 mf.1 (ex - (mf.2 : Int)))

def pyFloat (s : String) : Option ℚ := pyFloatChars s.toList

/-- Python `int(s)`: surrounding whitespace, optional sign, digits only. -/
def pyIntChars (cs0 : List Char) : Option Int :=
  let cs1 := stripChars cs0
  match cs1 with
  | '+' :: ds => if !ds.isEmpty && allDigits ds then some ((digitsToNat ds : Int)) else none
  | '-' :: ds => if !ds.isEmpty && allDigits ds then some (-(digitsToNat ds : Int)) else none
  | ds => if !ds.isEmpty && allDigits ds then some ((digitsToNat ds : Int)) else none

def pyInt (s : String) : Option Int := pyIntChars s.toList

/-- `float(x)` lifted to `Except`: failure is a Python `ValueError`
carrying the offending token. -/
def pyFloatE (s : String) : Except PyError ℚ :=
  match pyFloat s with
  | some q => Except.ok q
  | none => Except.error (PyError.valueError s)

/-- `int(x)` lifted to `Except`. -/
def pyIntE (s : String) : Except PyError Int :=
  match pyInt s with
  | some z => Except.ok z
  | none => Except.error (PyError.valueError s)

/-! ### Line classification (`ZVL_spectrum_read_1trace` /
`ZNL_spectrum_read_1trace`, lines 230–238 resp. 517–525; the two loops are
textually identical, so they share one embedding). -/

/-- The source's data test on a raw line: `line = line.strip()` followed by
`if line and line[0].isdigit()`. -/
def isDataLine (s : String) : Bool :=
  match (pyStrip s).toList with
  | [] => false
  | c :: _ => c.isDigit

/-- `[float(x) for x in line.split(';')]`: first failing token raises. -/
def parseDataRow : List String → Except PyError (List ℚ)
  | [] => Except.ok []
  | t :: ts =>
    match pyFloat t with
    | none => Except.error (PyError.valueError t)
    | some q =>
      match parseDataRow ts with
      | Except.error e => Except.error e
      | Except.ok qs => Except.ok (q :: qs)

/-- The classification loop: walk the lines in order, strip each line,
append its parsed tokens to `file_data` when the stripped line is nonempty
and starts with a digit, and to `file_header` otherwise. -/
def classifyFile : List String → Except PyError (List (List ℚ) × List (List String))
  | [] => Except.ok ([], [])
  | l :: rest =>
    let toks := splitTokens (pyStrip l)
    if isDataLine l then
      match parseDataRow toks with
      | Except.error e => Except.error e
      | Except.ok row =>
        match classifyFile rest with
        | Except.error e => Except.error e
        | Except.ok (d, h) => Except.ok (row :: d, h)
    else
      match classifyFile rest with
      | Except.error e => Except.error e
      | Except.ok (d, h) => Except.ok (d, toks :: h)

/-! ### Settings records (the Python classes, with `float` fields as exact
rationals and `int` fields as integers) -/

/-- `ZVL_spectrum_setting_device` (VNA_scripts.py, lines 127–169). -/
structure ZVL_spectrum_setting_device where
  dev_type : String
  version : String
  date : String
  mode : String
  center_freq : ℚ
  center_unit : String
  offset : ℚ
  offset_unit : String
  span : ℚ
  span_unit : String
  xAx_type : String
  xAx_start : ℚ
  xAx_start_unit : String
  xAx_stop : ℚ
  xAx_stop_unit : String
  reflvl : ℚ
  reflvl_unit : String
  offsetlvl : ℚ
  offsetlvl_unit : String
  refpos : ℚ
  refpos_unit : String
  yAx_type : String
  rangelvl : ℚ
  rangelvl_unit : String
  rfatt : ℚ
  rfatt_unit : String
  RBW : ℚ
  RBW_unit : String
  VBW : ℚ
  VBW_unit : String
  SWT : ℚ
  SWT_unit : String
  trace_mode : String
  detector : String
  sweep_cnt : Int
deriving DecidableEq

/-- `ZVL_spectrum_settings_one_trace` (lines 188–195). -/
structure ZVL_spectrum_settings_one_trace where
  x_unit : String
  y_unit : String
  preamp : String
  transducer : String
  meas_number : Int
deriving DecidableEq

/-- `ZNL_spectrum_setting_device` (lines 400–438). -/
structure ZNL_spectrum_setting_device where
  dev_type : String
  version : String
  date : String
  mode : String
  preamp : String
  transducer : String
  center_freq : ℚ
  center_unit : String
  offset : ℚ
  offset_unit : String
  xAx_start : ℚ
  xAx_start_unit : String
  xAx_stop : ℚ
  xAx_stop_unit : String
  span : ℚ
  span_unit : String
  reflvl : ℚ
  reflvl_unit : String
  offsetlvl : ℚ
  offsetlvl_unit : String
  rfatt : ℚ
  rfatt_unit : String
  elatt : ℚ
  elatt_unit : String
  RBW : ℚ
  RBW_unit : String
  VBW : ℚ
  VBW_unit : String
  SWT : ℚ
  SWT_unit : String
  sweep_cnt : Int
deriving DecidableEq

/-- `ZNL_spectrum_settings_one_trace` (lines 465–482). -/
structure ZNL_spectrum_settings_one_trace where
  window : String
  refpos : ℚ
  refpos_unit : String
  rangelvl : ℚ
  rangelvl_unit : String
  xAx_type : String
  yAx_type : String
  xAx_unit : String
  yAx_unit : String
  trace : String
  trace_mode : String
  detector : String
  meas_number : Int
deriving DecidableEq

/-- `ZVL_spectrum_setting_device.__init__`: the `float(...)`/`int(...)`
conversions, performed in assignment order (lines 135–169). -/
def mkZVLDevice (dev_type version date mode center_freq center_unit
    offset offset_unit span span_unit xAx_type xAx_start xAx_start_unit
    xAx_stop xAx_stop_unit reflvl reflvl_unit offsetlvl offsetlvl_unit
    refpos refpos_unit yAx_type rangelvl rangelvl_unit rfatt rfatt_unit
    RBW RBW_unit VBW VBW_unit SWT SWT_unit trace_mode detector
    sweep_cnt : String) : Except PyError ZVL_spectrum_setting_device := do
  let center_freqQ ← pyFloatE center_freq
  let offsetQ ← pyFloatE offset
  let spanQ ← pyFloatE span
  let xAx_startQ ← pyFloatE xAx_start
  let xAx_stopQ ← pyFloatE xAx_stop
  let reflvlQ ← pyFloatE reflvl
  let offsetlvlQ ← pyFloatE offsetlvl
  let refposQ ← pyFloatE refpos
  let rangelvlQ ← pyFloatE rangelvl
  let rfattQ ← pyFloatE rfatt
  let RBWQ ← pyFloatE RBW
  let VBWQ ← pyFloatE VBW
  let SWTQ ← pyFloatE SWT
  let sweep_cntZ ← pyIntE sweep_cnt
  return { dev_type := dev_type, version := version, date := date,
           mode := mode, center_freq := center_freqQ,
           center_unit := center_unit, offset := offsetQ,
           offset_unit := offset_unit, span := spanQ,
           span_unit := span_unit, xAx_type := xAx_type,
           xAx_start := xAx_startQ, xAx_start_unit := xAx_start_unit,
           xAx_stop := xAx_stopQ, xAx_stop_unit := xAx_stop_unit,
           reflvl := reflvlQ, reflvl_unit := reflvl_unit,
           offsetlvl := offsetlvlQ, offsetlvl_unit := offsetlvl_unit,
           refpos := refposQ, refpos_unit := refpos_unit,
           yAx_type := yAx_type, rangelvl := rangelvlQ,
           rangelvl_unit := rangelvl_unit, rfatt := rfattQ,
           rfatt_unit := rfatt_unit, RBW := RBWQ, RBW_unit := RBW_unit,
           VBW := VBWQ, VBW_unit := VBW_unit, SWT := SWTQ,
           SWT_unit := SWT_unit, trace_mode := trace_mode,
           detector := detector, sweep_cnt := sweep_cntZ }

/-- `ZVL_spectrum_settings_one_trace.__init__` (lines 189–195). -/
def mkZVLTrace (x_unit y_unit preamp transducer meas_number : String) :
    Except PyError ZVL_spectrum_settings_one_trace := do
  let meas_numberZ ← pyIntE meas_number
  return { x_unit := x_unit, y_unit := y_unit, preamp := preamp,
           transducer := transducer, meas_number := meas_numberZ }

/-- `ZNL_spectrum_setting_device.__init__` (lines 408–438). -/
def mkZNLDevice (dev_type version date mode preamp transducer center_freq
    center_unit offset offset_unit xAx_start xAx_start_unit xAx_stop
    xAx_stop_unit span span_unit reflvl reflvl_unit offsetlvl
    offsetlvl_unit rfatt rfatt_unit elatt elatt_unit RBW RBW_unit VBW
    VBW_unit SWT SWT_unit sweep_cnt : String) :
    Except PyError ZNL_spectrum_setting_device := do
  let center_freqQ ← pyFloatE center_freq
  let offsetQ ← pyFloatE offset
  let xAx_startQ ← pyFloatE xAx_start
  let xAx_stopQ ← pyFloatE xAx_stop
  let spanQ ← pyFloatE span
  let reflvlQ ← pyFloatE reflvl
  let offsetlvlQ ← pyFloatE offsetlvl
  let rfattQ ← pyFloatE rfatt
  let elattQ ← pyFloatE elatt
  let RBWQ ← pyFloatE RBW
  let VBWQ ← pyFloatE VBW
  let SWTQ ← pyFloatE SWT
  let sweep_cntZ ← pyIntE sweep_cnt
  return { dev_type := dev_type, version := version, date := date,
           mode := mode, preamp := preamp, transducer := transducer,
           center_freq := center_freqQ, center_unit := center_unit,
           offset := offsetQ, offset_unit := offset_unit,
           xAx_start := xAx_startQ, xAx_start_unit := xAx_start_unit,
           xAx_stop := xAx_stopQ, xAx_stop_unit := xAx_stop_unit,
           span := spanQ, span_unit := span_unit, reflvl := reflvlQ,
           reflvl_unit := reflvl_unit, offsetlvl := offsetlvlQ,
           offsetlvl_unit := offsetlvl_unit, rfatt := rfattQ,
           rfatt_unit := rfatt_unit, elatt := elattQ,
           elatt_unit := elatt_unit, RBW := RBWQ, RBW_unit := RBW_unit,
           VBW := VBWQ, VBW_unit := VBW_unit, SWT := SWTQ,
           SWT_unit := SWT_unit, sweep_cnt := sweep_cntZ }

/-- `ZNL_spectrum_settings_one_trace.__init__` (lines 466–482). -/
def mkZNLTrace (window refpos refpos_unit rangelvl rangelvl_unit xAx_type
    yAx_type xAx_unit yAx_unit trace trace_mode detector
    meas_number : String) :
    Except PyError ZNL_spectrum_settings_one_trace := do
  let refposQ ← pyFloatE refpos
  let rangelvlQ ← pyFloatE rangelvl
  let meas_numberZ ← pyIntE meas_number
  return { window := window, refpos := refposQ,
           refpos_unit := refpos_unit, rangelvl := rangelvlQ,
           rangelvl_unit := rangelvl_unit, xAx_type := xAx_type,
           yAx_type := yAx_type, xAx_unit := xAx_unit,
           yAx_unit := yAx_unit, trace := trace, trace_mode := trace_mode,
           detector := detector, meas_number := meas_numberZ }

/-! ### Fixed-offset header access and trace assembly -/

/-- `file_header[r][t]`: two Python list indexings; an out-of-range row
or token index raises `IndexError` (the two failure points produce the
same exception, so they are modelled by one combined lookup). -/
def getTok (fh : List (List String)) (r t : Nat) : Except PyError String :=
  match (fh.get? r).bind (fun row => row.get? t) with
  | none => Except.error PyError.indexError
  | some s => Except.ok s

/-- `file_data[cnt][i]` on a data row. -/
def getQ (row : List ℚ) (i : Nat) : Except PyError ℚ :=
  match row.get? i with
  | none => Except.error PyError.indexError
  | some q => Except.ok q

/-- Header-field extraction and record construction of
`ZVL_spectrum_read_1trace` (lines 243–300): the 40 fixed-offset token
accesses in source order, then the two constructors. -/
def ZVL_header_extract (fh : List (List String)) :
    Except PyError (ZVL_spectrum_setting_device × ZVL_spectrum_settings_one_trace) := do
  let dev_type ← getTok fh 0 1
  let dev_version ← getTok fh 1 1
  let dev_date ← getTok fh 2 1
  let dev_mode ← getTok fh 3 1
  let dev_center_freq ← getTok fh 4 1
  let dev_center_unit ← getTok fh 4 2
  let dev_offset ← getTok fh 5 1
  let dev_offset_unit ← getTok fh 5 2
  let dev_span ← getTok fh 6 1
  let dev_span_unit ← getTok fh 6 2
  let dev_xAx_type ← getTok fh 7 1
  let dev_xAx_start ← getTok fh 8 1
  let dev_xAx_start_unit ← getTok fh 8 2
  let dev_xAx_stop ← getTok fh 9 1
  let dev_xAx_stop_unit ← getTok fh 9 2
  let dev_reflvl ← getTok fh 10 1
  let dev_reflvl_unit ← getTok fh 10 2
  let dev_offsetlvl ← getTok fh 11 1
  let dev_offsetlvl_unit ← getTok fh 11 2
  let dev_refpos ← getTok fh 12 1
  let dev_refpos_unit ← getTok fh 12 2
  let dev_yAx_type ← getTok fh 13 1
  let dev_rangelvl ← getTok fh 14 1
  let dev_rangelvl_unit ← getTok fh 14 2
  let dev_rfatt ← getTok fh 15 1
  let dev_rfatt_unit ← getTok fh 15 2
  let dev_RBW ← getTok fh 16 1
  let dev_RBW_unit ← getTok fh 16 2
  let dev_VBW ← getTok fh 17 1
  let dev_VBW_unit ← getTok fh 17 2
  let dev_SWT ← getTok fh 18 1
  let dev_SWT_unit ← getTok fh 18 2
  let dev_trace_mode ← getTok fh 19 1
  let dev_detector ← getTok fh 20 1
  let dev_sweep_cnt ← getTok fh 21 1
  let tr_x_unit ← getTok fh 23 1
  let tr_y_unit ← getTok fh 24 1
  let tr_preamp ← getTok fh 25 1
  let tr_transducer ← getTok fh 26 1
  let tr_meas_number ← getTok fh 27 1
  let device_setting ← mkZVLDevice dev_type dev_version dev_date dev_mode
    dev_center_freq dev_center_unit dev_offset dev_offset_unit dev_span
    dev_span_unit dev_xAx_type dev_xAx_start dev_xAx_start_unit
    dev_xAx_stop dev_xAx_stop_unit dev_reflvl dev_reflvl_unit
    dev_offsetlvl dev_offsetlvl_unit dev_refpos dev_refpos_unit
    dev_yAx_type dev_rangelvl dev_rangelvl_unit dev_rfatt dev_rfatt_unit
    dev_RBW dev_RBW_unit dev_VBW dev_VBW_unit dev_SWT dev_SWT_unit
    dev_trace_mode dev_detector dev_sweep_cnt
  let trace_setting ← mkZVLTrace tr_x_unit tr_y_unit tr_preamp
    tr_transducer tr_meas_number
  return (device_setting, trace_setting)

/-- Header-field extraction and record construction of
`ZNL_spectrum_read_1trace` (lines 530–592): the 44 fixed-offset token
accesses in source order, then the two constructors. -/
def ZNL_header_extract (fh : List (List String)) :
    Except PyError (ZNL_spectrum_setting_device × ZNL_spectrum_settings_one_trace) := do
  let dev_type ← getTok fh 0 1
  let dev_version ← getTok fh 1 1
  let dev_date ← getTok fh 2 1
  let dev_mode ← getTok fh 3 1
  let dev_preamp ← getTok fh 4 1
  let dev_transducer ← getTok fh 5 1
  let dev_center_freq ← getTok fh 6 1
  let dev_center_unit ← getTok fh 6 2
  let dev_offset ← getTok fh 7 1
  let dev_offset_unit ← getTok fh 7 2
  let dev_xAx_start ← getTok fh 8 1
  let dev_xAx_start_unit ← getTok fh 8 2
  let dev_xAx_stop ← getTok fh 9 1
  let dev_xAx_stop_unit ← getTok fh 9 2
  let dev_span ← getTok fh 10 1
  let dev_span_unit ← getTok fh 10 2
  let dev_reflvl ← getTok fh 11 1
  let dev_reflvl_unit ← getTok fh 11 2
  let dev_offsetlvl ← getTok fh 12 1
  let dev_offsetlvl_unit ← getTok fh 12 2
  let dev_rfatt ← getTok fh 13 1
  let dev_rfatt_unit ← getTok fh 13 2
  let dev_elatt ← getTok fh 14 1
  let dev_elatt_unit ← getTok fh 14 2
  let dev_RBW ← getTok fh 15 1
  let dev_RBW_unit ← getTok fh 15 2
  let dev_VBW ← getTok fh 16 1
  let dev_VBW_unit ← getTok fh 16 2
  let dev_SWT ← getTok fh 17 1
  let dev_SWT_unit ← getTok fh 17 2
  let dev_sweep_cnt ← getTok fh 18 1
  let tr_window ← getTok fh 19 1
  let tr_refpos ← getTok fh 20 1
  let tr_refpos_unit ← getTok fh 20 2
  let tr_rangelvl ← getTok fh 21 1
  let tr_rangelvl_unit ← getTok fh 21 2
  let tr_xAx_type ← getTok fh 22 1
  let tr_yAx_type ← getTok fh 23 1
  let tr_xAx_unit ← getTok fh 24 1
  let tr_yAx_unit ← getTok fh 25 1
  let tr_trace ← getTok fh 26 1
  let tr_trace_mode ← getTok fh 27 1
  let tr_detector ← getTok fh 28 1
  let tr_meas_number ← getTok fh 29 1
  let device_setting ← mkZNLDevice dev_type dev_version dev_date dev_mode
    dev_preamp dev_transducer dev_center_freq dev_center_unit dev_offset
    dev_offset_unit dev_xAx_start dev_xAx_start_unit dev_xAx_stop
    dev_xAx_stop_unit dev_span dev_span_unit dev_reflvl dev_reflvl_unit
    dev_offsetlvl dev_offsetlvl_unit dev_rfatt dev_rfatt_unit dev_elatt
    dev_elatt_unit dev_RBW dev_RBW_unit dev_VBW dev_VBW_unit dev_SWT
    dev_SWT_unit dev_sweep_cnt
  let trace_setting ← mkZNLTrace tr_window tr_refpos tr_refpos_unit
    tr_rangelvl tr_rangelvl_unit tr_xAx_type tr_yAx_type tr_xAx_unit
    tr_yAx_unit tr_trace tr_trace_mode tr_detector tr_meas_number
  return (device_setting, trace_setting)

/-- The data-assembly loop (lines 303–308 resp. 595–600): walk the data
rows in order, `frequency` from column 0, `yval1` from column 1, and, when
`autopeak == 1`, `yval2` from column 2. -/
def assemble : List (List ℚ) → Int → Except PyError (List ℚ × List ℚ × List ℚ)
  | [], _ => Except.ok ([], [], [])
  | row :: rest, autopeak =>
    match getQ row 0 with
    | Except.error e => Except.error e
    | Except.ok f =>
      match getQ row 1 with
      | Except.error e => Except.error e
      | Except.ok y1 =>
        if autopeak = 1 then
          match getQ row 2 with
          | Except.error e => Except.error e
          | Except.ok y2 =>
            match assemble rest autopeak with
            | Except.error e => Except.error e
            | Except.ok (fs, y1s, y2s) => Except.ok (f :: fs, y1 :: y1s, y2 :: y2s)
        else
          match assemble rest autopeak with
          | Except.error e => Except.error e
          | Except.ok (fs, y1s, y2s) => Except.ok (f :: fs, y1 :: y1s, y2s)

/-! ### The parse entry points -/

/-- Result of a single-file parse: the returned 5-element list
`[device_setting, trace_setting, frequency, yval1, yval2]`. -/
structure ZVLResult where
  device_setting : ZVL_spectrum_setting_device
  trace_setting : ZVL_spectrum_settings_one_trace
  frequency : List ℚ
  yval1 : List ℚ
  yval2 : List ℚ
deriving DecidableEq

structure ZNLResult where
  device_setting : ZNL_spectrum_setting_device
  trace_setting : ZNL_spectrum_settings_one_trace
  frequency : List ℚ
  yval1 : List ℚ
  yval2 : List ℚ
deriving DecidableEq

/-- `ZVL_spectrum_read_1trace` (lines 220–310).  The file is given as its
list of lines; `autopeak` is the caller's integer flag. -/
def ZVL_spectrum_read_1trace (lines : List String) (autopeak : Int) :
    Except PyError ZVLResult :=
  match classifyFile lines with
  | Except.error e => Except.error e
  | Except.ok (file_data, file_header) =>
    match ZVL_header_extract file_header with
    | Except.error e => Except.error e
    | Except.ok (device_setting, trace_setting) =>
      match assemble file_data autopeak with
      | Except.error e => Except.error e
      | Except.ok (frequency, yval1, yval2) =>
        Except.ok ⟨device_setting, trace_setting, frequency, yval1, yval2⟩

/-- `ZNL_spectrum_read_1trace` (lines 507–602). -/
def ZNL_spectrum_read_1trace (lines : List String) (autopeak : Int) :
    Except PyError ZNLResult :=
  match classifyFile lines with
  | Except.error e => Except.error e
  | Except.ok (file_data, file_header) =>
    match ZNL_header_extract file_header with
    | Except.error e => Except.error e
    | Except.ok (device_setting, trace_setting) =>
      match assemble file_data autopeak with
      | Except.error e => Except.error e
      | Except.ok (frequency, yval1, yval2) =>
        Except.ok ⟨device_setting, trace_setting, frequency, yval1, yval2⟩

/-- Result of a batch parse: the five parallel lists
`[device_setting, trace_setting, frequency, yval1, yval2]`, one entry per
file. -/
structure ZVLMulti where
  device_setting : List ZVL_spectrum_setting_device
  trace_setting : List ZVL_spectrum_settings_one_trace
  frequency : List (List ℚ)
  yval1 : List (List ℚ)
  yval2 : List (List ℚ)
deriving DecidableEq

structure ZNLMulti where
  device_setting : List ZNL_spectrum_setting_device
  trace_setting : List ZNL_spectrum_settings_one_trace
  frequency : List (List ℚ)
  yval1 : List (List ℚ)
  yval2 : List (List ℚ)
deriving DecidableEq

/-- `ZVL_spectrum_read_multrace` (lines 332–348): iterate the single-file
parse over the files, appending each file's five outputs to five parallel
lists; an exception from any file propagates and aborts the whole loop,
discarding all earlier results. -/
def ZVL_spectrum_read_multrace (files : List (List String)) (autopeak : Int) :
    Except PyError ZVLMulti :=
  match files with
  | [] => Except.ok ⟨[], [], [], [], []⟩
  | f :: rest =>
    match ZVL_spectrum_read_1trace f autopeak with
    | Except.error e => Except.error e
    | Except.ok r =>
      match ZVL_spectrum_read_multrace rest autopeak with
      | Except.error e => Except.error e
      | Except.ok m =>
        Except.ok ⟨r.device_setting :: m.device_setting,
                   r.trace_setting :: m.trace_setting,
                   r.frequency :: m.frequency,
                   r.yval1 :: m.yval1,
                   r.yval2 :: m.yval2⟩

/-- `ZNL_spectrum_read_multrace` (lines 624–640). -/
def ZNL_spectrum_read_multrace (files : List (List String)) (autopeak : Int) :
    Except PyError ZNLMulti :=
  match files with
  | [] => Except.ok ⟨[], [], [], [], []⟩
  | f :: rest =>
    match ZNL_spectrum_read_1trace f autopeak with
    | Except.error e => Except.error e
    | Except.ok r =>
      match ZNL_spectrum_read_multrace rest autopeak with
      | Except.error e => Except.error e
      | Except.ok m =>
        Except.ok ⟨r.device_setting :: m.device_setting,
                   r.trace_setting :: m.trace_setting,
                   r.frequency :: m.frequency,
                   r.yval1 :: m.yval1,
                   r.yval2 :: m.yval2⟩

/-! ### Concrete instrument files for witnesses and counterexamples -/

/-- The 28 header lines of a family-A (ZVL) export: 22 device-setting
lines, a blank separator, 5 trace-setting lines. -/
def zvlHeaderLines : List String :=
  ["Type;ZVL",
   "Version;1.70",
   "Date;01.Jan 2020",
   "Mode;ANALYZER",
   "Center Frequency;1.000000E+05;Hz",
   "Freq Offset;0;Hz",
   "Span;1000;Hz",
   "x-Axis;LIN",
   "Start;100;Hz",
   "Stop;200;Hz",
   "Ref Level;-20;dBm",
   "Level Offset;0;dB",
   "Ref Position;100;%",
   "y-Axis;LOG",
   "Level Range;100;dB",
   "Rf Att;10;dB",
   "RBW;100;Hz",
   "VBW;300;Hz",
   "SWT;0.02;s",
   "Trace Mode;CLR/WRITE",
   "Detector;AUTOPEAK",
   "Sweep Count;0",
   "",
   "x-Unit;Hz",
   "y-Unit;dBm",
   "Preamplifier;OFF",
   "Transducer;",
   "Values;2"]

/-- A well-formed ZVL export with two 3-column data rows. -/
def zvlLines : List String :=
  zvlHeaderLines ++ ["9000;-42.3;-45.1", "9500;-41.0;-44.0"]

/-- Its classified header table. -/
def zvlHeader : List (List String) :=
  [["Type", "ZVL"],
   ["Version", "1.70"],
   ["Date", "01.Jan 2020"],
   ["Mode", "ANALYZER"],
   ["Center Frequency", "1.000000E+05", "Hz"],
   ["Freq Offset", "0", "Hz"],
   ["Span", "1000", "Hz"],
   ["x-Axis", "LIN"],
   ["Start", "100", "Hz"],
   ["Stop", "200", "Hz"],
   ["Ref Level", "-20", "dBm"],
   ["Level Offset", "0", "dB"],
   ["Ref Position", "100", "%"],
   ["y-Axis", "LOG"],
   ["Level Range", "100", "dB"],
   ["Rf Att", "10", "dB"],
   ["RBW", "100", "Hz"],
   ["VBW", "300", "Hz"],
   ["SWT", "0.02", "s"],
   ["Trace Mode", "CLR/WRITE"],
   ["Detector", "AUTOPEAK"],
   ["Sweep Count", "0"],
   [""],
   ["x-Unit", "Hz"],
   ["y-Unit", "dBm"],
   ["Preamplifier", "OFF"],
   ["Transducer", ""],
   ["Values", "2"]]

/-- Its classified data table. -/
def zvlData : List (List ℚ) :=
  [[9000, mkRat (-423) 10, mkRat (-451) 10],
   [9500, -41, -44]]

/-- The device-settings record parsed from `zvlLines`. -/
def zvlDevice : ZVL_spectrum_setting_device :=
  { dev_type := "ZVL", version := "1.70", date := "01.Jan 2020",
    mode := "ANALYZER", center_freq := 100000, center_unit := "Hz",
    offset := 0, offset_unit := "Hz", span := 1000, span_unit := "Hz",
    xAx_type := "LIN", xAx_start := 100, xAx_start_unit := "Hz",
    xAx_stop := 200, xAx_stop_unit := "Hz", reflvl := -20,
    reflvl_unit := "dBm", offsetlvl := 0, offsetlvl_unit := "dB",
    refpos := 100, refpos_unit := "%", yAx_type := "LOG",
    rangelvl := 100, rangelvl_unit := "dB", rfatt := 10,
    rfatt_unit := "dB", RBW := 100, RBW_unit := "Hz", VBW := 300,
    VBW_unit := "Hz", SWT := mkRat 1 50, SWT_unit := "s",
    trace_mode := "CLR/WRITE", detector := "AUTOPEAK", sweep_cnt := 0 }

/-- The trace-settings record parsed from `zvlLines`. -/
def zvlTrace : ZVL_spectrum_settings_one_trace :=
  { x_unit := "Hz", y_unit := "dBm", preamp := "OFF", transducer := "",
    meas_number := 2 }


/-- The 30 header lines of a family-B (ZNL) export: 19 device-setting
lines and 11 trace-setting lines. -/
def znlHeaderLines : List String :=
  ["Type;ZNL",
   "Version;1.00",
   "Date;01.Jan 2020",
   "Mode;ANALYZER",
   "Preamplifier;OFF",
   "Transducer;",
   "Center Frequency;1.000000E+05;Hz",
   "Freq Offset;0;Hz",
   "Start;100;Hz",
   "Stop;200;Hz",
   "Span;1000;Hz",
   "Ref Level;-20;dBm",
   "Level Offset;0;dB",
   "Rf Att;10;dB",
   "El Att;0;dB",
   "RBW;100;Hz",
   "VBW;300;Hz",
   "SWT;0.02;s",
   "Sweep Count;0",
   "Window;1",
   "Ref Position;100;%",
   "Level Range;100;dB",
   "x-Axis;LIN",
   "y-Axis;LOG",
   "x-Unit;Hz",
   "y-Unit;dBm",
   "Trace;1",
   "Trace Mode;CLR/WRITE",
   "Detector;AUTOPEAK",
   "Values;2"]

/-- A well-formed ZNL export with two 3-column data rows. -/
def znlLines : List String :=
  znlHeaderLines ++ ["9000;-42.3;-45.1", "9500;-41.0;-44.0"]

/-- The device-settings record parsed from `znlLines`. -/
def znlDevice : ZNL_spectrum_setting_device :=
  { dev_type := "ZNL", version := "1.00", date := "01.Jan 2020",
    mode := "ANALYZER", preamp := "OFF", transducer := "",
    center_freq := 100000, center_unit := "Hz", offset := 0,
    offset_unit := "Hz", xAx_start := 100, xAx_start_unit := "Hz",
    xAx_stop := 200, xAx_stop_unit := "Hz", span := 1000,
    span_unit := "Hz", reflvl := -20, reflvl_unit := "dBm",
    offsetlvl := 0, offsetlvl_unit := "dB", rfatt := 10,
    rfatt_unit := "dB", elatt := 0, elatt_unit := "dB", RBW := 100,
    RBW_unit := "Hz", VBW := 300, VBW_unit := "Hz", SWT := mkRat 1 50,
    SWT_unit := "s", sweep_cnt := 0 }

/-- The trace-settings record parsed from `znlLines`. -/
def znlTrace : ZNL_spectrum_settings_one_trace :=
  { window := "1", refpos := 100, refpos_unit := "%", rangelvl := 100,
    rangelvl_unit := "dB", xAx_type := "LIN", yAx_type := "LOG",
    xAx_unit := "Hz", yAx_unit := "dBm", trace := "1",
    trace_mode := "CLR/WRITE", detector := "AUTOPEAK",
    meas_number := 2 }

/-- The full single-file parse result of `zvlLines` with `autopeak = 1`. -/
def zvlResultAp1 : ZVLResult :=
  ⟨zvlDevice, zvlTrace, [9000, 9500], [mkRat (-423) 10, -41],
   [mkRat (-451) 10, -44]⟩

/-- `zvlHeader` with every field-name token (token 0) replaced — used to
exhibit that extraction never reads the name tokens. -/
def zvlHeaderRenamed : List (List String) :=
  zvlHeader.map (fun row =>
    match row with
    | [] => ([] : List String)
    | _ :: rest => "X" :: rest)

/-- A ZVL export whose header region is one line shorter than the family-A
layout (the final `Values` line is missing): 27 header lines. -/
def zvlShortLines : List String :=
  (zvlHeaderLines.take 27) ++ ["9000;-42.3;-45.1"]

/-- A ZVL export whose data rows carry only 2 columns. -/
def zvlTwoColLines : List String :=
  zvlHeaderLines ++ ["9000;-42.3", "9500;-41.0"]

/-- A file with a data-region line (first character a digit) whose second
token is not numeric. -/
def badRowLines : List String := ["9x;1"]

/-! ### Helper lemmas -/

theorem exceptBind_ok {α β : Type} {x : Except PyError α}
    {k : α → Except PyError β} {b : β} (h : x >>= k = Except.ok b) :
    ∃ a, x = Except.ok a ∧ k a = Except.ok b := by
  cases x with
  | error e => exact absurd h (by simp [Bind.bind, Except.bind])
  | ok a => exact ⟨a, rfl, h⟩

theorem exceptBind_err {α β : Type} {x : Except PyError α}
    {k : α → Except PyError β} {e : PyError} (h : x = Except.error e) :
    x >>= k = Except.error e := by
  subst h; rfl

/-- Every failing header-token access is a Python `IndexError`. -/
theorem getTok_tot (fh : List (List String)) (r t : Nat) :
    getTok fh r t = Except.error PyError.indexError ∨
      ∃ v, getTok fh r t = Except.ok v := by
  cases h : (fh.get? r).bind (fun row => row.get? t) with
  | none => exact Or.inl (by unfold getTok; rw [h])
  | some s => exact Or.inr ⟨s, by unfold getTok; rw [h]⟩

/-- An out-of-range row index gives `IndexError` whatever the token. -/
theorem getTok_oob {fh : List (List String)} {r : Nat}
    (h : fh.get? r = none) (t : Nat) :
    getTok fh r t = Except.error PyError.indexError := by
  unfold getTok
  rw [h]
  rfl

/-- Chaining: a bind whose head can only fail with `IndexError` and whose
continuation always yields `IndexError` yields `IndexError`. -/
theorem bindChain {α β : Type} (x : Except PyError α)
    (k : α → Except PyError β)
    (hx : x = Except.error PyError.indexError ∨ ∃ v, x = Except.ok v)
    (hk : ∀ v, k v = Except.error PyError.indexError) :
    x >>= k = Except.error PyError.indexError := by
  rcases hx with h | ⟨v, h⟩
  · subst h; rfl
  · subst h; exact hk v

/-- A header table with fewer than 28 rows makes the ZVL extractor fail
with `IndexError` (the access at row 27 is out of range, and any earlier
failing access is equally an `IndexError`). -/
theorem ZVL_extract_short (fh : List (List String)) (h : fh.length < 28) :
    ZVL_header_extract fh = Except.error PyError.indexError := by
  have h27 : fh.get? 27 = none := by
    rw [List.get?_eq_none]
    omega
  unfold ZVL_header_extract
  iterate 39 refine bindChain _ _ (getTok_tot _ _ _) fun _ => ?_
  exact exceptBind_err (getTok_oob h27 1)

/-- A header table with fewer than 30 rows makes the ZNL extractor fail
with `IndexError`. -/
theorem ZNL_extract_short (fh : List (List String)) (h : fh.length < 30) :
    ZNL_header_extract fh = Except.error PyError.indexError := by
  have h29 : fh.get? 29 = none := by
    rw [List.get?_eq_none]
    omega
  unfold ZNL_header_extract
  iterate 43 refine bindChain _ _ (getTok_tot _ _ _) fun _ => ?_
  exact exceptBind_err (getTok_oob h29 1)

theorem getQ_ok {row : List ℚ} {i : Nat} {q : ℚ}
    (h : getQ row i = Except.ok q) : row.get? i = some q := by
  unfold getQ at h
  cases hr : row.get? i with
  | none => rw [hr] at h; exact Except.noConfusion h
  | some q' => rw [hr] at h; injection h with h'; exact congrArg some h'

/-- What a successful run of the assembly loop yields: `frequency` is
column 0 of the data rows in order, `yval1` column 1, and `yval2` column 2
exactly when `autopeak == 1` (otherwise it stays empty). -/
theorem assemble_ok (fd : List (List ℚ)) (ap : Int) :
    ∀ f y1 y2 : List ℚ, assemble fd ap = Except.ok (f, y1, y2) →
      (∀ i, f.get? i = (fd.get? i).bind (fun row => row.get? 0)) ∧
      (∀ i, y1.get? i = (fd.get? i).bind (fun row => row.get? 1)) ∧
      (ap = 1 → ∀ i, y2.get? i = (fd.get? i).bind (fun row => row.get? 2)) ∧
      f.length = fd.length ∧ y1.length = fd.length ∧
      (ap = 1 → y2.length = fd.length) ∧ (¬ ap = 1 → y2 = []) := by
  induction fd with
  | nil =>
    intro f y1 y2 h
    unfold assemble at h
    injection h with h'
    injection h' with hf h''
    injection h'' with hy1 hy2
    subst hf; subst hy1; subst hy2
    exact ⟨fun _ => rfl, fun _ => rfl, fun _ _ => rfl, rfl, rfl,
           fun _ => rfl, fun _ => rfl⟩
  | cons row rest ih =>
    intro f y1 y2 h
    unfold assemble at h
    cases h0 : getQ row 0 with
    | error e => rw [h0] at h; exact Except.noConfusion h
    | ok fv =>
      simp only [h0] at h
      cases h1 : getQ row 1 with
      | error e => rw [h1] at h; exact Except.noConfusion h
      | ok y1v =>
        simp only [h1] at h
        by_cases hap : ap = 1
        · rw [if_pos hap] at h
          cases h2 : getQ row 2 with
          | error e => rw [h2] at h; exact Except.noConfusion h
          | ok y2v =>
            rw [h2] at h
            cases hr : assemble rest ap with
            | error e => rw [hr] at h; exact Except.noConfusion h
            | ok triple =>
              obtain ⟨fs, y1s, y2s⟩ := triple
              rw [hr] at h
              injection h with h'
              injection h' with hf h''
              injection h'' with hy1 hy2
              subst hf; subst hy1; subst hy2
              obtain ⟨if0, if1, if2, il0, il1, il2, _⟩ := ih fs y1s y2s hr
              refine ⟨?_, ?_, ?_, ?_, ?_, ?_, ?_⟩
              · intro i; cases i with
                | zero => simpa using (getQ_ok h0).symm
                | succ n => simpa using if0 n
              · intro i; cases i with
                | zero => simpa using (getQ_ok h1).symm
                | succ n => simpa using if1 n
              · intro _ i; cases i with
                | zero => simpa using (getQ_ok h2).symm
                | succ n => simpa using if2 hap n
              · simpa using il0
              · simpa using il1
              · intro _; simpa using il2 hap
              · intro hc; exact absurd hap hc
        · rw [if_neg hap] at h
          cases hr : assemble rest ap with
          | error e => rw [hr] at h; exact Except.noConfusion h
          | ok triple =>
            obtain ⟨fs, y1s, y2s⟩ := triple
            rw [hr] at h
            injection h with h'
            injection h' with hf h''
            injection h'' with hy1 hy2
            subst hf; subst hy1; subst hy2
            obtain ⟨if0, if1, _, il0, il1, _, iy2⟩ := ih fs y1s y2s hr
            refine ⟨?_, ?_, ?_, ?_, ?_, ?_, ?_⟩
            · intro i; cases i with
              | zero => simpa using (getQ_ok h0).symm
              | succ n => simpa using if0 n
            · intro i; cases i with
              | zero => simpa using (getQ_ok h1).symm
              | succ n => simpa using if1 n
            · intro hc; exact absurd hc hap
            · simpa using il0
            · simpa using il1
            · intro hc; exact absurd hc hap
            · intro _; exact iy2 hap

/-- Dropping the autopeak flag: whenever assembly succeeds with
`autopeak == 1`, it also succeeds with any other flag value, giving the
same `frequency`/`yval1` and an empty `yval2`. -/
theorem assemble_drop_autopeak (fd : List (List ℚ)) :
    ∀ (ap : Int) (f y1 y2 : List ℚ), ¬ ap = 1 →
      assemble fd 1 = Except.ok (f, y1, y2) →
      assemble fd ap = Except.ok (f, y1, []) := by
  induction fd with
  | nil =>
    intro ap f y1 y2 _ h
    unfold assemble at h ⊢
    injection h with h'
    injection h' with hf h''
    injection h'' with hy1 hy2
    subst hf; subst hy1
    rfl
  | cons row rest ih =>
    intro ap f y1 y2 hap h
    unfold assemble at h ⊢
    cases h0 : getQ row 0 with
    | error e => rw [h0] at h; exact Except.noConfusion h
    | ok fv =>
      simp only [h0] at h ⊢
      cases h1 : getQ row 1 with
      | error e => rw [h1] at h; exact Except.noConfusion h
      | ok y1v =>
        simp only [h1] at h ⊢
        rw [if_pos trivial] at h
        rw [if_neg hap]
        cases h2 : getQ row 2 with
        | error e => rw [h2] at h; exact Except.noConfusion h
        | ok y2v =>
          rw [h2] at h
          cases hr : assemble rest 1 with
          | error e => rw [hr] at h; exact Except.noConfusion h
          | ok triple =>
            obtain ⟨fs, y1s, y2s⟩ := triple
            rw [hr] at h
            injection h with h'
            injection h' with hf h''
            injection h'' with hy1 hy2
            subst hf; subst hy1
            rw [ih ap fs y1s y2s hap hr]

/-- With `autopeak == 1`, a data row with only two columns makes the
assembly loop fail with `IndexError` at `file_data[cnt][2]`, provided the
earlier rows have a third column to read. -/
theorem assemble_missing_third (pre : List (List ℚ)) (row : List ℚ)
    (post : List (List ℚ)) (hpre : ∀ r ∈ pre, 3 ≤ r.length)
    (hrow : row.length = 2) :
    assemble (pre ++ row :: post) 1 = Except.error PyError.indexError := by
  induction pre with
  | nil =>
    match row, hrow with
    | [a, b], _ => rfl
    | [], hr => exact absurd hr (by simp)
    | [a], hr => exact absurd hr (by simp)
    | a :: b :: c :: t, hr => exact absurd hr (by simp)
  | cons r pre' ih =>
    have hr3 : 3 ≤ r.length := hpre r (by simp)
    have ih' := ih (fun x hx => hpre x (by simp [hx]))
    match r, hr3 with
    | c0 :: c1 :: c2 :: rr, _ =>
      show (match assemble (pre' ++ row :: post) 1 with
            | Except.error e => Except.error e
            | Except.ok (fs, y1s, y2s) =>
              Except.ok (c0 :: fs, c1 :: y1s, c2 :: y2s)) =
          Except.error PyError.indexError
      rw [ih']
    | [], hr => exact absurd hr (by simp)
    | [a], hr => exact absurd hr (by simp)
    | [a, b], hr => exact absurd hr (by simp)

/-- The data rows of a whole file, parsed in order (used to characterise
a successful classification). -/
def parseRows : List String → Except PyError (List (List ℚ))
  | [] => Except.ok []
  | l :: ls =>
    match parseDataRow (splitTokens (pyStrip l)) with
    | Except.error e => Except.error e
    | Except.ok row =>
      match parseRows ls with
      | Except.error e => Except.error e
      | Except.ok rows => Except.ok (row :: rows)

/-- A successful classification is exactly: the data table is the parsed
rows of the data-classified lines in file order, and the header table is
the token split of every other line — stripped as a whole line, tokens
untrimmed — in file order. -/
theorem classify_ok_char (lines : List String) :
    ∀ d h, classifyFile lines = Except.ok (d, h) →
      parseRows (lines.filter isDataLine) = Except.ok d ∧
      h = (lines.filter (fun l => !(isDataLine l))).map
            (fun l => splitTokens (pyStrip l)) := by
  induction lines with
  | nil =>
    intro d h hc
    unfold classifyFile at hc
    injection hc with hc'
    injection hc' with hd hh
    subst hd; subst hh
    exact ⟨rfl, rfl⟩
  | cons l rest ih =>
    intro d h hc
    unfold classifyFile at hc
    by_cases hl : isDataLine l
    · rw [if_pos hl] at hc
      cases hrow : parseDataRow (splitTokens (pyStrip l)) with
      | error e => rw [hrow] at hc; exact Except.noConfusion hc
      | ok row =>
        simp only [hrow] at hc
        cases hrest : classifyFile rest with
        | error e => rw [hrest] at hc; exact Except.noConfusion hc
        | ok p =>
          obtain ⟨d', h'⟩ := p
          simp only [hrest] at hc
          injection hc with hc'
          injection hc' with hd hh
          subst hd; subst hh
          obtain ⟨ihd, ihh⟩ := ih d' h' hrest
          constructor
          · rw [List.filter_cons_of_pos hl]
            unfold parseRows
            rw [hrow, ihd]
          · rw [List.filter_cons_of_neg (by simp [hl]), ihh]
    · rw [if_neg hl] at hc
      cases hrest : classifyFile rest with
      | error e => rw [hrest] at hc; exact Except.noConfusion hc
      | ok p =>
        obtain ⟨d', h'⟩ := p
        simp only [hrest] at hc
        injection hc with hc'
        injection hc' with hd hh
        subst hd; subst hh
        obtain ⟨ihd, ihh⟩ := ih d' h' hrest
        constructor
        · rw [List.filter_cons_of_neg (by simp [hl]), ihd]
        · rw [List.filter_cons_of_pos (by simp [hl]), ihh, List.map_cons]

/-- A failing classification comes from a data-classified line whose
token list fails to parse; the error is that line's parse error. -/
theorem classify_err_char (lines : List String) :
    ∀ e, classifyFile lines = Except.error e →
      ∃ l ∈ lines, isDataLine l = true ∧
        parseDataRow (splitTokens (pyStrip l)) = Except.error e := by
  induction lines with
  | nil => intro e hc; exact Except.noConfusion hc
  | cons l rest ih =>
    intro e hc
    unfold classifyFile at hc
    by_cases hl : isDataLine l
    · rw [if_pos hl] at hc
      cases hrow : parseDataRow (splitTokens (pyStrip l)) with
      | error e' =>
        rw [hrow] at hc
        injection hc with hc'
        exact ⟨l, by simp, hl, by rw [hrow, hc']⟩
      | ok row =>
        simp only [hrow] at hc
        cases hrest : classifyFile rest with
        | error e' =>
          rw [hrest] at hc
          injection hc with hc'
          obtain ⟨l', hl', hdl', hrow'⟩ := ih e' hrest
          exact ⟨l', by simp [hl'], hdl', by rw [hrow', hc']⟩
        | ok p =>
          obtain ⟨d', h'⟩ := p
          simp only [hrest] at hc
          exact Except.noConfusion hc
    · rw [if_neg hl] at hc
      cases hrest : classifyFile rest with
      | error e' =>
        rw [hrest] at hc
        injection hc with hc'
        obtain ⟨l', hl', hdl', hrow'⟩ := ih e' hrest
        exact ⟨l', by simp [hl'], hdl', by rw [hrow', hc']⟩
      | ok p =>
        obtain ⟨d', h'⟩ := p
        simp only [hrest] at hc
        exact Except.noConfusion hc

/-- A failing data-row parse fails with a Python `ValueError` carrying the
offending token — the first token of the row that `float(...)` rejects;
no line number is part of the error. -/
theorem parseDataRow_err (toks : List String) :
    ∀ e, parseDataRow toks = Except.error e →
      ∃ t ∈ toks, pyFloat t = none ∧ e = PyError.valueError t := by
  induction toks with
  | nil => intro e hc; exact Except.noConfusion hc
  | cons t ts ih =>
    intro e hc
    unfold parseDataRow at hc
    cases hf : pyFloat t with
    | none =>
      rw [hf] at hc
      injection hc with hc'
      exact ⟨t, by simp, hf, hc'.symm⟩
    | some q =>
      rw [hf] at hc
      cases hrest : parseDataRow ts with
      | error e' =>
        simp only [hrest] at hc
        injection hc with hc'
        obtain ⟨t', ht', hf', he'⟩ := ih e' hrest
        exact ⟨t', by simp [ht'], hf', by rw [← hc', he']⟩
      | ok qs => simp only [hrest] at hc; exact Except.noConfusion hc

theorem exceptIsOk_ok {A : Type} (a : A) :
    (Except.ok a : Except PyError A).isOk = true := rfl

theorem exceptIsOk_error {A : Type} (e : PyError) :
    (Except.error e : Except PyError A).isOk = false := rfl

/-! ### The claims -/

/-- C1 (amended).  The spec claims that a header-table shorter than the
family schema (fewer than 28 classified header lines for ZVL, fewer than
30 for ZNL) raises an eager `SchemaMismatch` before any settings field is
extracted.  The code has no header-length check and no `SchemaMismatch`
error at all: whenever classification succeeds but the header-table is
short, the single-file parse fails with a Python `IndexError` raised by
the first out-of-range fixed-offset header access. -/
theorem C1_short_header_raises_index_err :
    (∀ lines fd fh ap, classifyFile lines = Except.ok (fd, fh) →
        fh.length < 28 →
        ZVL_spectrum_read_1trace lines ap = Except.error PyError.indexError) ∧
    (∀ lines fd fh ap, classifyFile lines = Except.ok (fd, fh) →
        fh.length < 30 →
        ZNL_spectrum_read_1trace lines ap = Except.error PyError.indexError) := by
  constructor
  · intro lines fd fh ap hc hlen
    unfold ZVL_spectrum_read_1trace
    simp only [hc]
    rw [ZVL_extract_short fh hlen]
  · intro lines fd fh ap hc hlen
    unfold ZNL_spectrum_read_1trace
    simp only [hc]
    rw [ZNL_extract_short fh hlen]

/-- C1 counterexample: a ZVL file whose header region is one line shorter
than the 28-line family-A layout parses to a Python `IndexError`, not to
the `SchemaMismatch` the claim demands. -/
theorem C1_counterexample :
    ZVL_spectrum_read_1trace zvlShortLines 0 = Except.error PyError.indexError ∧
    ZVL_spectrum_read_1trace zvlShortLines 0 ≠ Except.error PyError.schemaMismatch := by
  decide

theorem C1_witness :
    ZVL_spectrum_read_1trace zvlShortLines 0 = Except.error PyError.indexError ∧
    ZNL_spectrum_read_1trace ["Type;ZNL"] 0 = Except.error PyError.indexError :=
  ⟨C1_short_header_raises_index_err.1 zvlShortLines
      [[9000, mkRat (-423) 10, mkRat (-451) 10]] (zvlHeader.take 27) 0
      (by decide) (by decide),
   C1_short_header_raises_index_err.2 ["Type;ZNL"] [] [["Type", "ZNL"]] 0
      (by decide) (by decide)⟩

/-- C2 (amended).  Classification is as claimed — a line is data exactly
when, after stripping the whole line, it is nonempty and starts with a
decimal digit; data lines are split on `;` with every token parsed as a
float, all other lines are split on `;` into string tokens, and each table
keeps file order — but the individual tokens are NOT trimmed: the header
table holds the raw `split(';')` pieces of the stripped line, whitespace
included (numeric parsing succeeds on padded tokens only because
`float(...)` itself ignores surrounding whitespace). -/
theorem C2_classifier_characterisation (lines : List String)
    (d : List (List ℚ)) (h : List (List String))
    (hc : classifyFile lines = Except.ok (d, h)) :
    parseRows (lines.filter isDataLine) = Except.ok d ∧
    h = (lines.filter (fun l => !(isDataLine l))).map
          (fun l => splitTokens (pyStrip l)) :=
  classify_ok_char lines d h hc

/-- C2 counterexample: the header line `"Type; ZVL"` is stored with the
untrimmed token `" ZVL"`, not the trimmed `"ZVL"` the claim requires. -/
theorem C2_counterexample :
    classifyFile ["Type; ZVL"] = Except.ok ([], [["Type", " ZVL"]]) ∧
    classifyFile ["Type; ZVL"] ≠ Except.ok ([], [["Type", "ZVL"]]) := by
  decide

theorem C2_witness :
    parseRows (zvlLines.filter isDataLine) = Except.ok zvlData ∧
    zvlHeader = (zvlLines.filter (fun l => !(isDataLine l))).map
          (fun l => splitTokens (pyStrip l)) :=
  C2_classifier_characterisation zvlLines zvlData zvlHeader (by decide)

/-- C4 (amended).  A blank line (empty after stripping) is NOT discarded:
the classifier's else-branch appends `"".split(';') == [""]` to the
header-table, so a blank line occupies a header index.  The family-A
layout depends on this — its blank separator occupies header index 22,
which the extractor skips. -/
theorem C4_blank_line_occupies_header_row (s : String) (lines : List String)
    (hs : pyStrip s = "") :
    classifyFile (s :: lines) =
      (classifyFile lines).map (fun p => (p.1, [""] :: p.2)) := by
  have hd : isDataLine s = false := by
    unfold isDataLine
    rw [hs]
    decide
  have hst : splitTokens (pyStrip s) = [""] := by
    rw [hs]
    decide
  simp only [classifyFile]
  cases hc : classifyFile lines with
  | error e => simp [hd, hst, hc, Except.map]
  | ok p =>
    obtain ⟨dd, hh⟩ := p
    simp [hd, hst, hc, Except.map]

/-- C4 counterexample: a file consisting of one blank line yields a
header-table with one row (the claim requires both tables empty). -/
theorem C4_counterexample :
    classifyFile [""] = Except.ok ([], [[""]]) ∧
    classifyFile [""] ≠ Except.ok ([], []) := by
  decide

theorem C4_witness :
    classifyFile ["  ", "Type;ZVL"] =
      (classifyFile ["Type;ZVL"]).map (fun p => (p.1, [""] :: p.2)) :=
  C4_blank_line_occupies_header_row "  " ["Type;ZVL"] (by decide)

/-- C6 (amended).  A data-region token that `float(...)` rejects makes the
parse of that file fail with a Python `ValueError` carrying the offending
token — not with a `MalformedDataRow` error, and nothing records the line
number.  The failure aborts the file's parse (nothing is returned, so no
partial rows escape) and the error propagates unchanged through both
single-file parsers. -/
theorem C6_bad_token_raises_value_err :
    (∀ lines ap e, classifyFile lines = Except.error e →
        ZVL_spectrum_read_1trace lines ap = Except.error e ∧
        ZNL_spectrum_read_1trace lines ap = Except.error e) ∧
    (∀ toks e, parseDataRow toks = Except.error e →
        ∃ t ∈ toks, pyFloat t = none ∧ e = PyError.valueError t) ∧
    (∀ lines e, classifyFile lines = Except.error e →
        ∃ l ∈ lines, isDataLine l = true ∧
          parseDataRow (splitTokens (pyStrip l)) = Except.error e) := by
  refine ⟨?_, parseDataRow_err, classify_err_char⟩
  intro lines ap e hc
  constructor
  · unfold ZVL_spectrum_read_1trace
    simp only [hc]
  · unfold ZNL_spectrum_read_1trace
    simp only [hc]

/-- C6 counterexample: the malformed data line `"9x;1"` produces
`ValueError "9x"`, which is not a `MalformedDataRow` and carries no line
number. -/
theorem C6_counterexample :
    ZVL_spectrum_read_1trace badRowLines 0 = Except.error (PyError.valueError "9x") ∧
    PyError.isMalformedDataRow (PyError.valueError "9x") = false := by
  decide

theorem C6_witness :
    ZVL_spectrum_read_1trace badRowLines 0 = Except.error (PyError.valueError "9x") ∧
    ZNL_spectrum_read_1trace badRowLines 0 = Except.error (PyError.valueError "9x") :=
  C6_bad_token_raises_value_err.1 badRowLines 0 (PyError.valueError "9x") (by decide)

/-- C7 (amended).  When `autopeak == 1` but a data row has only two
columns, the parse fails with a Python `IndexError` raised by
`file_data[cnt][2]` in the assembly loop — there is no `SchemaMismatch`
error and no column-count validation anywhere. -/
theorem C7_missing_column_raises_index_err (lines : List String)
    (fd : List (List ℚ)) (fh : List (List String))
    (dt : ZVL_spectrum_setting_device × ZVL_spectrum_settings_one_trace)
    (pre post : List (List ℚ)) (row : List ℚ)
    (hc : classifyFile lines = Except.ok (fd, fh))
    (hex : ZVL_header_extract fh = Except.ok dt)
    (hfd : fd = pre ++ row :: post)
    (hpre : ∀ r ∈ pre, 3 ≤ r.length) (hrow : row.length = 2) :
    ZVL_spectrum_read_1trace lines 1 = Except.error PyError.indexError := by
  obtain ⟨dev, tr⟩ := dt
  subst hfd
  unfold ZVL_spectrum_read_1trace
  simp only [hc, hex]
  rw [assemble_missing_third pre row post hpre hrow]

/-- C7 counterexample: a well-formed ZVL header with 2-column data rows,
parsed with `autopeak = 1`, yields `IndexError`, not `SchemaMismatch`. -/
theorem C7_counterexample :
    ZVL_spectrum_read_1trace zvlTwoColLines 1 = Except.error PyError.indexError ∧
    ZVL_spectrum_read_1trace zvlTwoColLines 1 ≠ Except.error PyError.schemaMismatch := by
  decide

theorem C7_witness :
    ZVL_spectrum_read_1trace zvlTwoColLines 1 = Except.error PyError.indexError :=
  C7_missing_column_raises_index_err zvlTwoColLines
    [[9000, mkRat (-423) 10], [9500, -41]] zvlHeader (zvlDevice, zvlTrace)
    [] [[9500, -41]] [9000, mkRat (-423) 10]
    (by decide) (by decide) (by decide) (by decide) (by decide)

/-- C5 (amended).  The batch parsers contain no per-file error handling:
a batch succeeds exactly when every file's single-trace parse succeeds,
so any single failing file aborts the whole batch with that error and no
results are returned for any file (there is no per-file failure report
and no partial output). -/
theorem C5_batch_aborts_on_any_failure :
    (∀ files ap, (ZVL_spectrum_read_multrace files ap).isOk = true ↔
        ∀ f ∈ files, (ZVL_spectrum_read_1trace f ap).isOk = true) ∧
    (∀ files ap, (ZNL_spectrum_read_multrace files ap).isOk = true ↔
        ∀ f ∈ files, (ZNL_spectrum_read_1trace f ap).isOk = true) := by
  constructor
  · intro files ap
    induction files with
    | nil => exact ⟨fun _ g hg => absurd hg (List.not_mem_nil g), fun _ => rfl⟩
    | cons f rest ih =>
      constructor
      · intro hok
        unfold ZVL_spectrum_read_multrace at hok
        cases hf : ZVL_spectrum_read_1trace f ap with
        | error e =>
          rw [hf] at hok
          exact absurd hok (by rw [exceptIsOk_error]; exact Bool.false_ne_true)
        | ok r =>
          simp only [hf] at hok
          cases hrest : ZVL_spectrum_read_multrace rest ap with
          | error e =>
            rw [hrest] at hok
            exact absurd hok (by rw [exceptIsOk_error]; exact Bool.false_ne_true)
          | ok m =>
            intro g hg
            rcases List.mem_cons.mp hg with hgf | hgr
            · subst hgf; rw [hf]; exact exceptIsOk_ok r
            · exact ih.mp (by rw [hrest]; exact exceptIsOk_ok m) g hgr
      · intro hall
        have hfok := hall f (List.mem_cons_self f rest)
        cases hfe : ZVL_spectrum_read_1trace f ap with
        | error e =>
          rw [hfe] at hfok
          exact absurd hfok (by rw [exceptIsOk_error]; exact Bool.false_ne_true)
        | ok r =>
          have hrok := ih.mpr (fun g hg => hall g (List.mem_cons_of_mem f hg))
          cases hre : ZVL_spectrum_read_multrace rest ap with
          | error e =>
            rw [hre] at hrok
            exact absurd hrok (by rw [exceptIsOk_error]; exact Bool.false_ne_true)
          | ok m =>
            unfold ZVL_spectrum_read_multrace
            simp only [hfe, hre]
            exact exceptIsOk_ok _
  · intro files ap
    induction files with
    | nil => exact ⟨fun _ g hg => absurd hg (List.not_mem_nil g), fun _ => rfl⟩
    | cons f rest ih =>
      constructor
      · intro hok
        unfold ZNL_spectrum_read_multrace at hok
        cases hf : ZNL_spectrum_read_1trace f ap with
        | error e =>
          rw [hf] at hok
          exact absurd hok (by rw [exceptIsOk_error]; exact Bool.false_ne_true)
        | ok r =>
          simp only [hf] at hok
          cases hrest : ZNL_spectrum_read_multrace rest ap with
          | error e =>
            rw [hrest] at hok
            exact absurd hok (by rw [exceptIsOk_error]; exact Bool.false_ne_true)
          | ok m =>
            intro g hg
            rcases List.mem_cons.mp hg with hgf | hgr
            · subst hgf; rw [hf]; exact exceptIsOk_ok r
            · exact ih.mp (by rw [hrest]; exact exceptIsOk_ok m) g hgr
      · intro hall
        have hfok := hall f (List.mem_cons_self f rest)
        cases hfe : ZNL_spectrum_read_1trace f ap with
        | error e =>
          rw [hfe] at hfok
          exact absurd hfok (by rw [exceptIsOk_error]; exact Bool.false_ne_true)
        | ok r =>
          have hrok := ih.mpr (fun g hg => hall g (List.mem_cons_of_mem f hg))
          cases hre : ZNL_spectrum_read_multrace rest ap with
          | error e =>
            rw [hre] at hrok
            exact absurd hrok (by rw [exceptIsOk_error]; exact Bool.false_ne_true)
          | ok m =>
            unfold ZNL_spectrum_read_multrace
            simp only [hfe, hre]
            exact exceptIsOk_ok _

/-- C5 counterexample: in a 3-file batch whose 2nd file is corrupted, the
files at indices 0 and 2 parse fine on their own, yet the batch returns a
bare error — no per-file failure report and no results for the other two
files, where the claim requires indices 0 and 2 to be returned parsed. -/
theorem C5_counterexample :
    (ZVL_spectrum_read_1trace zvlLines 0).isOk = true ∧
    ZVL_spectrum_read_multrace [zvlLines, badRowLines, zvlLines] 0 =
      Except.error (PyError.valueError "9x") := by
  decide

theorem C5_witness :
    (ZVL_spectrum_read_multrace [zvlLines] 1).isOk = true ∧
    (ZNL_spectrum_read_multrace [znlLines] 1).isOk = true :=
  ⟨(C5_batch_aborts_on_any_failure.1 [zvlLines] 1).mpr (by decide),
   (C5_batch_aborts_on_any_failure.2 [znlLines] 1).mpr (by decide)⟩

/-- C8.  A file whose data rows carry a third column, parsed with the
autopeak flag unset (any value other than 1): the parse succeeds, the
third column is ignored, and `yval2` is returned empty — confirmed, with
"succeeds" witnessed relative to the same file parsing under
`autopeak = 1`. -/
theorem C8_extra_column_ignored_without_autopeak :
    (∀ lines ap r, ¬ ap = 1 →
        ZVL_spectrum_read_1trace lines 1 = Except.ok r →
        ZVL_spectrum_read_1trace lines ap =
          Except.ok ⟨r.device_setting, r.trace_setting, r.frequency, r.yval1, []⟩) ∧
    (∀ lines ap r, ¬ ap = 1 →
        ZNL_spectrum_read_1trace lines 1 = Except.ok r →
        ZNL_spectrum_read_1trace lines ap =
          Except.ok ⟨r.device_setting, r.trace_setting, r.frequency, r.yval1, []⟩) := by
  constructor
  · intro lines ap r hap hr
    unfold ZVL_spectrum_read_1trace at hr ⊢
    cases hc : classifyFile lines with
    | error e => rw [hc] at hr; exact Except.noConfusion hr
    | ok p =>
      obtain ⟨fd, fh⟩ := p
      simp only [hc] at hr ⊢
      cases hex : ZVL_header_extract fh with
      | error e => rw [hex] at hr; exact Except.noConfusion hr
      | ok dt =>
        obtain ⟨dev, tr⟩ := dt
        simp only [hex] at hr ⊢
        cases has : assemble fd 1 with
        | error e => rw [has] at hr; exact Except.noConfusion hr
        | ok triple =>
          obtain ⟨f, y1, y2⟩ := triple
          simp only [has] at hr
          rw [assemble_drop_autopeak fd ap f y1 y2 hap has]
          injection hr with hr'
          subst hr'
          rfl
  · intro lines ap r hap hr
    unfold ZNL_spectrum_read_1trace at hr ⊢
    cases hc : classifyFile lines with
    | error e => rw [hc] at hr; exact Except.noConfusion hr
    | ok p =>
      obtain ⟨fd, fh⟩ := p
      simp only [hc] at hr ⊢
      cases hex : ZNL_header_extract fh with
      | error e => rw [hex] at hr; exact Except.noConfusion hr
      | ok dt =>
        obtain ⟨dev, tr⟩ := dt
        simp only [hex] at hr ⊢
        cases has : assemble fd 1 with
        | error e => rw [has] at hr; exact Except.noConfusion hr
        | ok triple =>
          obtain ⟨f, y1, y2⟩ := triple
          simp only [has] at hr
          rw [assemble_drop_autopeak fd ap f y1 y2 hap has]
          injection hr with hr'
          subst hr'
          rfl

theorem C8_witness :
    ZVL_spectrum_read_1trace zvlLines 0 =
      Except.ok ⟨zvlDevice, zvlTrace, [9000, 9500],
                 [mkRat (-423) 10, -41], []⟩ ∧
    ZNL_spectrum_read_1trace znlLines 0 =
      Except.ok ⟨znlDevice, znlTrace, [9000, 9500],
                 [mkRat (-423) 10, -41], []⟩ :=
  ⟨C8_extra_column_ignored_without_autopeak.1 zvlLines 0
      ⟨zvlDevice, zvlTrace, [9000, 9500], [mkRat (-423) 10, -41],
       [mkRat (-451) 10, -44]⟩ (by decide) (by decide),
   C8_extra_column_ignored_without_autopeak.2 znlLines 0
      ⟨znlDevice, znlTrace, [9000, 9500], [mkRat (-423) 10, -41],
       [mkRat (-451) 10, -44]⟩ (by decide) (by decide)⟩

/-- C3.  For every successful parse: `frequency` is column 0 of the data
rows in file order, `yval1` is column 1, `yval2` is column 2 exactly when
the autopeak flag equals 1 (and empty otherwise); the lengths agree as the
claim states.  Confirmed. -/
theorem C3_trace_columns (lines : List String) (fd : List (List ℚ))
    (fh : List (List String)) (ap : Int) (r : ZVLResult)
    (hc : classifyFile lines = Except.ok (fd, fh))
    (hr : ZVL_spectrum_read_1trace lines ap = Except.ok r) :
    (∀ i, r.frequency.get? i = (fd.get? i).bind (fun row => row.get? 0)) ∧
    (∀ i, r.yval1.get? i = (fd.get? i).bind (fun row => row.get? 1)) ∧
    (ap = 1 → ∀ i, r.yval2.get? i = (fd.get? i).bind (fun row => row.get? 2)) ∧
    r.frequency.length = fd.length ∧
    r.yval1.length = r.frequency.length ∧
    (ap = 1 → r.yval2.length = r.frequency.length) ∧
    (¬ ap = 1 → r.yval2 = []) := by
  unfold ZVL_spectrum_read_1trace at hr
  simp only [hc] at hr
  cases hex : ZVL_header_extract fh with
  | error e => rw [hex] at hr; exact Except.noConfusion hr
  | ok dt =>
    obtain ⟨dev, tr⟩ := dt
    simp only [hex] at hr
    cases has : assemble fd ap with
    | error e => rw [has] at hr; exact Except.noConfusion hr
    | ok triple =>
      obtain ⟨f, y1, y2⟩ := triple
      simp only [has] at hr
      injection hr with hr'
      subst hr'
      obtain ⟨if0, if1, if2, il0, il1, il2, iy2⟩ := assemble_ok fd ap f y1 y2 has
      exact ⟨if0, if1, if2, il0, by rw [il0]; exact il1,
             fun h1 => by rw [il0]; exact il2 h1, iy2⟩

theorem C3_witness :
    zvlResultAp1.frequency.length = zvlData.length ∧
    zvlResultAp1.yval1.length = zvlResultAp1.frequency.length ∧
    zvlResultAp1.yval2.length = zvlResultAp1.frequency.length :=
  ⟨(C3_trace_columns zvlLines zvlData zvlHeader 1 zvlResultAp1
      (by decide) (by decide)).2.2.2.1,
   (C3_trace_columns zvlLines zvlData zvlHeader 1 zvlResultAp1
      (by decide) (by decide)).2.2.2.2.1,
   (C3_trace_columns zvlLines zvlData zvlHeader 1 zvlResultAp1
      (by decide) (by decide)).2.2.2.2.2.1 rfl⟩

/-- C10.  Header-field extraction is purely positional: it reads only
tokens 1 and 2 of the fixed rows and never inspects a field-name token
(token 0).  Two header tables that agree on tokens 1 and 2 of every row
the schemas can touch (rows below 30) — their name tokens and anything
else arbitrary — produce identical `DeviceSettings` and `TraceSettings`
results under both family extractors.  Confirmed (this is the silent
wrong-family acceptance the claim describes). -/
theorem C10_extraction_ignores_name_tokens (h1 h2 : List (List String))
    (ha1 : ∀ r, r < 30 → getTok h1 r 1 = getTok h2 r 1)
    (ha2 : ∀ r, r < 30 → getTok h1 r 2 = getTok h2 r 2) :
    ZVL_header_extract h1 = ZVL_header_extract h2 ∧
    ZNL_header_extract h1 = ZNL_header_extract h2 := by
  constructor
  · unfold ZVL_header_extract
    rw [ha1 0 (by omega), ha1 1 (by omega), ha1 2 (by omega),
        ha1 3 (by omega), ha1 4 (by omega), ha2 4 (by omega),
        ha1 5 (by omega), ha2 5 (by omega), ha1 6 (by omega),
        ha2 6 (by omega), ha1 7 (by omega), ha1 8 (by omega),
        ha2 8 (by omega), ha1 9 (by omega), ha2 9 (by omega),
        ha1 10 (by omega), ha2 10 (by omega), ha1 11 (by omega),
        ha2 11 (by omega), ha1 12 (by omega), ha2 12 (by omega),
        ha1 13 (by omega), ha1 14 (by omega), ha2 14 (by omega),
        ha1 15 (by omega), ha2 15 (by omega), ha1 16 (by omega),
        ha2 16 (by omega), ha1 17 (by omega), ha2 17 (by omega),
        ha1 18 (by omega), ha2 18 (by omega), ha1 19 (by omega),
        ha1 20 (by omega), ha1 21 (by omega), ha1 23 (by omega),
        ha1 24 (by omega), ha1 25 (by omega), ha1 26 (by omega),
        ha1 27 (by omega)]
  · unfold ZNL_header_extract
    rw [ha1 0 (by omega), ha1 1 (by omega), ha1 2 (by omega),
        ha1 3 (by omega), ha1 4 (by omega), ha1 5 (by omega),
        ha1 6 (by omega), ha2 6 (by omega), ha1 7 (by omega),
        ha2 7 (by omega), ha1 8 (by omega), ha2 8 (by omega),
        ha1 9 (by omega), ha2 9 (by omega), ha1 10 (by omega),
        ha2 10 (by omega), ha1 11 (by omega), ha2 11 (by omega),
        ha1 12 (by omega), ha2 12 (by omega), ha1 13 (by omega),
        ha2 13 (by omega), ha1 14 (by omega), ha2 14 (by omega),
        ha1 15 (by omega), ha2 15 (by omega), ha1 16 (by omega),
        ha2 16 (by omega), ha1 17 (by omega), ha2 17 (by omega),
        ha1 18 (by omega), ha1 19 (by omega), ha1 20 (by omega),
        ha2 20 (by omega), ha1 21 (by omega), ha2 21 (by omega),
        ha1 22 (by omega), ha1 23 (by omega), ha1 24 (by omega),
        ha1 25 (by omega), ha1 26 (by omega), ha1 27 (by omega),
        ha1 28 (by omega), ha1 29 (by omega)]

theorem C10_witness :
    ZVL_header_extract zvlHeader = ZVL_header_extract zvlHeaderRenamed ∧
    ZNL_header_extract zvlHeader = ZNL_header_extract zvlHeaderRenamed :=
  C10_extraction_ignores_name_tokens zvlHeader zvlHeaderRenamed
    (by decide) (by decide)

/-- C9.  For every family-A file whose header row 4 (the 5th header line)
is `"Center Frequency;1.000000E+05;Hz"`, a successful parse yields
`center_freq = 100000` (the value token parsed as a float) and
`center_unit = "Hz"` (the next token of the same header line).
Confirmed. -/
theorem C9_center_frequency_fields (lines : List String)
    (fd : List (List ℚ)) (fh : List (List String)) (ap : Int)
    (r : ZVLResult)
    (hc : classifyFile lines = Except.ok (fd, fh))
    (hrow : fh.get? 4 = some ["Center Frequency", "1.000000E+05", "Hz"])
    (hr : ZVL_spectrum_read_1trace lines ap = Except.ok r) :
    r.device_setting.center_freq = 100000 ∧
    r.device_setting.center_unit = "Hz" := by
  unfold ZVL_spectrum_read_1trace at hr
  simp only [hc] at hr
  cases hex : ZVL_header_extract fh with
  | error e => rw [hex] at hr; exact Except.noConfusion hr
  | ok dt =>
    obtain ⟨dev, tr⟩ := dt
    simp only [hex] at hr
    cases has : assemble fd ap with
    | error e => rw [has] at hr; exact Except.noConfusion hr
    | ok triple =>
      obtain ⟨f, y1, y2⟩ := triple
      simp only [has] at hr
      injection hr with hr'
      subst hr'
      show dev.center_freq = 100000 ∧ dev.center_unit = "Hz"
      unfold ZVL_header_extract at hex
      obtain ⟨_, _, hex⟩ := exceptBind_ok hex
      obtain ⟨_, _, hex⟩ := exceptBind_ok hex
      obtain ⟨_, _, hex⟩ := exceptBind_ok hex
      obtain ⟨_, _, hex⟩ := exceptBind_ok hex
      obtain ⟨a4, hcf, hex⟩ := exceptBind_ok hex
      obtain ⟨a5, hcu, hex⟩ := exceptBind_ok hex
      obtain ⟨_, _, hex⟩ := exceptBind_ok hex
      obtain ⟨_, _, hex⟩ := exceptBind_ok hex
      obtain ⟨_, _, hex⟩ := exceptBind_ok hex
      obtain ⟨_, _, hex⟩ := exceptBind_ok hex
      obtain ⟨_, _, hex⟩ := exceptBind_ok hex
      obtain ⟨_, _, hex⟩ := exceptBind_ok hex
      obtain ⟨_, _, hex⟩ := exceptBind_ok hex
      obtain ⟨_, _, hex⟩ := exceptBind_ok hex
      obtain ⟨_, _, hex⟩ := exceptBind_ok hex
      obtain ⟨_, _, hex⟩ := exceptBind_ok hex
      obtain ⟨_, _, hex⟩ := exceptBind_ok hex
      obtain ⟨_, _, hex⟩ := exceptBind_ok hex
      obtain ⟨_, _, hex⟩ := exceptBind_ok hex
      obtain ⟨_, _, hex⟩ := exceptBind_ok hex
      obtain ⟨_, _, hex⟩ := exceptBind_ok hex
      obtain ⟨_, _, hex⟩ := exceptBind_ok hex
      obtain ⟨_, _, hex⟩ := exceptBind_ok hex
      obtain ⟨_, _, hex⟩ := exceptBind_ok hex
      obtain ⟨_, _, hex⟩ := exceptBind_ok hex
      obtain ⟨_, _, hex⟩ := exceptBind_ok hex
      obtain ⟨_, _, hex⟩ := exceptBind_ok hex
      obtain ⟨_, _, hex⟩ := exceptBind_ok hex
      obtain ⟨_, _, hex⟩ := exceptBind_ok hex
      obtain ⟨_, _, hex⟩ := exceptBind_ok hex
      obtain ⟨_, _, hex⟩ := exceptBind_ok hex
      obtain ⟨_, _, hex⟩ := exceptBind_ok hex
      obtain ⟨_, _, hex⟩ := exceptBind_ok hex
      obtain ⟨_, _, hex⟩ := exceptBind_ok hex
      obtain ⟨_, _, hex⟩ := exceptBind_ok hex
      obtain ⟨_, _, hex⟩ := exceptBind_ok hex
      obtain ⟨_, _, hex⟩ := exceptBind_ok hex
      obtain ⟨_, _, hex⟩ := exceptBind_ok hex
      obtain ⟨_, _, hex⟩ := exceptBind_ok hex
      obtain ⟨_, _, hex⟩ := exceptBind_ok hex
      obtain ⟨adev, hdev, hex⟩ := exceptBind_ok hex
      obtain ⟨atr, htr, hex⟩ := exceptBind_ok hex
      injection hex with hex'
      injection hex' with hdv htv
      subst hdv
      have h41 : getTok fh 4 1 = Except.ok "1.000000E+05" := by
        unfold getTok
        rw [hrow]
        rfl
      have h42 : getTok fh 4 2 = Except.ok "Hz" := by
        unfold getTok
        rw [hrow]
        rfl
      have ha4 : "1.000000E+05" = a4 := by
        have hcmp := h41.symm.trans hcf
        injection hcmp
      have ha5 : "Hz" = a5 := by
        have hcmp := h42.symm.trans hcu
        injection hcmp
      subst ha4
      subst ha5
      unfold mkZVLDevice at hdev
      obtain ⟨q1, hq1, hdev⟩ := exceptBind_ok hdev
      obtain ⟨_, _, hdev⟩ := exceptBind_ok hdev
      obtain ⟨_, _, hdev⟩ := exceptBind_ok hdev
      obtain ⟨_, _, hdev⟩ := exceptBind_ok hdev
      obtain ⟨_, _, hdev⟩ := exceptBind_ok hdev
      obtain ⟨_, _, hdev⟩ := exceptBind_ok hdev
      obtain ⟨_, _, hdev⟩ := exceptBind_ok hdev
      obtain ⟨_, _, hdev⟩ := exceptBind_ok hdev
      obtain ⟨_, _, hdev⟩ := exceptBind_ok hdev
      obtain ⟨_, _, hdev⟩ := exceptBind_ok hdev
      obtain ⟨_, _, hdev⟩ := exceptBind_ok hdev
      obtain ⟨_, _, hdev⟩ := exceptBind_ok hdev
      obtain ⟨_, _, hdev⟩ := exceptBind_ok hdev
      obtain ⟨_, _, hdev⟩ := exceptBind_ok hdev
      injection hdev with hdev'
      subst hdev'
      have hv : pyFloatE "1.000000E+05" = Except.ok ((100000 : ℚ)) := by decide
      have hq := hv.symm.trans hq1
      injection hq with hq'
      subst hq'
      exact ⟨rfl, rfl⟩

theorem C9_witness :
    zvlResultAp1.device_setting.center_freq = 100000 ∧
    zvlResultAp1.device_setting.center_unit = "Hz" :=
  C9_center_frequency_fields zvlLines zvlData zvlHeader 1 zvlResultAp1
    (by decide) (by decide) (by decide)

